import Mathlib

/-!
Shallow embedding of the two Conan package descriptors of
`aws/thinkbox-my-library`:

* `MayaSDKConan/conanfile.py` — packages the Autodesk Maya SDK
  (`MayaSDK` namespace below), and
* `conanfile.py` — packages the `thinkboxmylibrary` shared library
  (`ThinkboxMYLibrary` namespace below).

Python dictionaries become association lists, Python sets of strings
become lists queried by membership, raising code returns `Except PyError`,
and the option objects of each recipe become explicit records threaded
through `configure` / `validate` / `build`.
-/

/-- Errors a recipe method can raise: `KeyError` on a dictionary access
with a `(compiler, compiler-version)` tuple key, `KeyError` on a
string-keyed dictionary access, a plain `Exception` carrying its message
(the configuration errors), and an OS error from a failed file copy. -/
inductive PyError : Type
  | keyError (key : String × String)
  | keyErrorS (key : String)
  | exception (msg : String)
  | ioError (path : String)
  deriving DecidableEq, Repr

/-- Unchecked Python dictionary lookup, returning `none` for a missing
key; callers turn `none` into `PyError.keyError`/`keyErrorS`. -/
def dictGet {α β : Type} [DecidableEq α] : List (α × β) → α → Option β
  | [], _ => none
  | (k, v) :: rest, key => if key = k then some v else dictGet rest key

/-- Python `str()` applied to a Conan option value: an unset option
prints as `"None"`, a set option prints as its string value. -/
def pyStr : Option String → String
  | none => "None"
  | some s => s

/-- Python `str()` of a 2-tuple of strings, as interpolated into the
configuration error message. -/
def pyTupleStr (p : String × String) : String :=
  "(\x27" ++ p.1 ++ "\x27, \x27" ++ p.2 ++ "\x27)"

/-- The message of the configuration error both recipes raise when the
SDK version is not in the compatibility set of the compiler pair. -/
def configErrMsg (p : String × String) (mayaVersion : String) : String :=
  pyTupleStr p ++ " is not a valid configuration for Maya " ++ mayaVersion

/-- Python `str.format` with one positional argument on a character
list: the first occurrence of the placeholder pair is replaced by the
argument. -/
def formatOne : List Char → List Char → List Char
  | [], _ => []
  | '{' :: '}' :: rest, arg => arg ++ rest
  | c :: rest, arg => c :: formatOne rest arg

/-- Python `str.format` with one positional argument. -/
def pyFormat1 (template arg : String) : String :=
  String.mk (formatOne template.data arg.data)

namespace MayaSDK

/-- `VALID_MAYA_CONFIGS` of `MayaSDKConan/conanfile.py`: the compiler
compatibility matrix, mapping a `(compiler, compiler-version)` pair to
the set of supported Maya versions. -/
def VALID_MAYA_CONFIGS : List ((String × String) × List String) :=
  [ (("Visual Studio", "16"), ["2022", "2023"]),
    (("gcc", "7"), ["2022", "2023"]),
    (("gcc", "9"), ["2022", "2023"]),
    (("apple-clang", "10.0"), ["2022", "2023"]) ]

/-- `SETTINGS['os']`: the supported operating systems. -/
def SETTINGS_os : List String := ["Windows", "Linux", "Macos"]

/-- `SETTINGS['compiler']`: the selectable compiler names with their
selectable version lists. -/
def SETTINGS_compilers : List (String × List String) :=
  [ ("Visual Studio", ["16"]),
    ("gcc", ["7", "9"]),
    ("apple-clang", ["10.0"]) ]

/-- `MAYA_SDK_LIBS`: the six libraries the build phase copies. -/
def MAYA_SDK_LIBS : List String :=
  [ "Foundation",
    "OpenMaya",
    "OpenMayaAnim",
    "OpenMayaFX",
    "OpenMayaRender",
    "OpenMayaUI" ]

/-- `LIBRARY_EXTENSIONS`: per-OS library file extension. -/
def LIBRARY_EXTENSIONS : List (String × String) :=
  [ ("Windows", "lib"), ("Linux", "so"), ("Macos", "dylib") ]

/-- `LIBRARY_PREFIX` of the source (renamed here): per-OS library
filename prefix. -/
def LIBRARY_PREFIXES : List (String × String) :=
  [ ("Windows", ""), ("Linux", "lib"), ("Macos", "lib") ]

/-- `LIBRARY_DIRECTORIES`: per-OS subdirectory of the Maya installation
holding the libraries. -/
def LIBRARY_DIRECTORIES : List (String × String) :=
  [ ("Windows", "lib"), ("Linux", "lib"), ("Macos", "Maya.app/Conents/MacOS") ]

/-- `DEFAULT_MAYA_PATHS`: per-OS default installation path template,
with a placeholder for the Maya version. -/
def DEFAULT_MAYA_PATHS : List (String × String) :=
  [ ("Windows", "C:/Program Files/Autodesk/Maya\x7b\x7d"),
    ("Linux", "/usr/autodesk/maya\x7b\x7d"),
    ("Macos", "/Applications/Autodesk/maya\x7b\x7d") ]

/-- The two options of `MayaSDKConan`: `maya_version` and `maya_path`,
each possibly unset. -/
structure MayaSDKOptions : Type where
  maya_version : Option String
  maya_path : Option String
  deriving DecidableEq, Repr

/-- `MayaSDKConan.configure`: default `maya_version` to `"2022"` when
unset, then default `maya_path` from `DEFAULT_MAYA_PATHS` keyed by the
OS setting, formatted with the Maya version, when unset.  The dictionary
access on the OS is unchecked. -/
def configure (os : String) (o : MayaSDKOptions) : Except PyError MayaSDKOptions :=
  let o1 := if o.maya_version = none then { o with maya_version := some "2022" } else o
  if o1.maya_path = none then
    match dictGet DEFAULT_MAYA_PATHS os with
    | none => Except.error (PyError.keyErrorS os)
    | some t =>
        Except.ok { o1 with maya_path := some (pyFormat1 t (pyStr o1.maya_version)) }
  else Except.ok o1

/-- `MayaSDKConan.validate`: unchecked matrix lookup on the
`(compiler, compiler-version)` tuple, then raise the configuration
error when the Maya version is not in the looked-up set. -/
def validate (o : MayaSDKOptions) (compiler compilerVersion : String) :
    Except PyError Unit :=
  let compilerTuple := (compiler, compilerVersion)
  let mayaVersion := pyStr o.maya_version
  match dictGet VALID_MAYA_CONFIGS compilerTuple with
  | none => Except.error (PyError.keyError compilerTuple)
  | some s =>
      if mayaVersion ∈ s then Except.ok ()
      else Except.error (PyError.exception (configErrMsg compilerTuple mayaVersion))

/-- The part of the vendor Maya installation `MayaSDKConan.build` reads:
the tree of header files under `include/maya` when that directory exists,
and the filenames present in the per-OS library subdirectory. -/
structure VendorInstall : Type where
  headerTree : Option (List String)
  libFiles : List String
  deriving DecidableEq, Repr

/-- String-keyed dictionary access that raises `KeyError` when the key
is absent, as the `build` loop's accesses into the platform tables do. -/
def pyDictGetS (d : List (String × String)) (k : String) : Except PyError String :=
  match dictGet d k with
  | some v => Except.ok v
  | none => Except.error (PyError.keyErrorS k)

/-- The per-library copy loop of `MayaSDKConan.build`: for each library
name in order, look up the per-OS directory, prefix and extension, form
the platform filename, and copy it; a missing source file raises an OS
error and stops the loop.  Returns the filenames copied into `lib/`. -/
def copyLibs (os : String) (avail : List String) : List String → Except PyError (List String)
  | [] => Except.ok []
  | lib :: rest =>
    match pyDictGetS LIBRARY_DIRECTORIES os with
    | Except.error e => Except.error e
    | Except.ok _ =>
      match pyDictGetS LIBRARY_PREFIXES os with
      | Except.error e => Except.error e
      | Except.ok p =>
        match pyDictGetS LIBRARY_EXTENSIONS os with
        | Except.error e => Except.error e
        | Except.ok ext =>
          let fname := p ++ lib ++ "." ++ ext
          if fname ∈ avail then
            match copyLibs os avail rest with
            | Except.error e => Except.error e
            | Except.ok r => Except.ok (fname :: r)
          else Except.error (PyError.ioError fname)

/-- The files `build` places in the build tree: the mirrored
`include/maya` header tree and the `lib/` directory contents. -/
structure BuildOutput : Type where
  includeMaya : List String
  libDir : List String
  deriving DecidableEq, Repr

/-- `MayaSDKConan.build`: recreate `include/`, recursively copy the
vendor `include/maya` tree (failing when it is absent), recreate `lib/`,
then copy the six platform-named libraries in order. -/
def build (os : String) (vendor : VendorInstall) : Except PyError BuildOutput :=
  match vendor.headerTree with
  | none => Except.error (PyError.ioError "include/maya")
  | some hs =>
    match copyLibs os vendor.libFiles MAYA_SDK_LIBS with
    | Except.error e => Except.error e
    | Except.ok libs => Except.ok ⟨hs, libs⟩

/-- The platform-specific filename the build loop forms for a library:
the per-OS prefix, the library name, a dot, and the per-OS extension. -/
def expectedLibFile (os lib : String) : String :=
  (dictGet LIBRARY_PREFIXES os).getD "" ++ lib ++ "." ++
    (dictGet LIBRARY_EXTENSIONS os).getD ""

end MayaSDK

namespace ThinkboxMYLibrary

/-- `VALID_MAYA_CONFIGS` of the top-level `conanfile.py`: the same
compatibility matrix, duplicated. -/
def VALID_MAYA_CONFIGS : List ((String × String) × List String) :=
  [ (("Visual Studio", "16"), ["2022", "2023"]),
    (("gcc", "7"), ["2022", "2023"]),
    (("gcc", "9"), ["2022", "2023"]),
    (("apple-clang", "10.0"), ["2022", "2023"]) ]

/-- The configuration state `ThinkboxMYLibraryConan.configure` and
`validate` touch: this package's `maya_version` option and the
`maya_version` option of the `mayasdk` dependency
(`self.options['mayasdk'].maya_version`). -/
structure MYLibOptions : Type where
  maya_version : Option String
  mayasdk_maya_version : Option String
  deriving DecidableEq, Repr

/-- `ThinkboxMYLibraryConan.configure`: default `maya_version` to
`"2022"` when unset, then overwrite the `mayasdk` dependency's
`maya_version` option with this package's value. -/
def configure (o : MYLibOptions) : MYLibOptions :=
  let o1 := if o.maya_version = none then { o with maya_version := some "2022" } else o
  { o1 with mayasdk_maya_version := o1.maya_version }

/-- The message of the configuration error raised when the two
`maya_version` options diverge. -/
def mismatchMsg : String :=
  "Option \x27maya_version\x27 must be the same as mayasdk"

/-- `ThinkboxMYLibraryConan.validate`: raise when this package's
`maya_version` differs from the `mayasdk` dependency's, then perform
the same unchecked matrix lookup and membership check as the SDK
recipe. -/
def validate (o : MYLibOptions) (compiler compilerVersion : String) :
    Except PyError Unit :=
  if o.maya_version ≠ o.mayasdk_maya_version then
    Except.error (PyError.exception mismatchMsg)
  else
    let compilerTuple := (compiler, compilerVersion)
    let mayaVersion := pyStr o.maya_version
    match dictGet VALID_MAYA_CONFIGS compilerTuple with
    | none => Except.error (PyError.keyError compilerTuple)
    | some s =>
        if mayaVersion ∈ s then Except.ok ()
        else Except.error (PyError.exception (configErrMsg compilerTuple mayaVersion))

/-- Python `readlines` on a file whose contents are the given character
list: split after every newline character, keeping the newlines; the
accumulator holds the current (reversed) partial line. -/
def readlinesAux : List Char → List Char → List (List Char)
  | [], acc => if acc.isEmpty then [] else [acc.reverse]
  | c :: cs, acc =>
    if c = '\n' then (acc.reverse ++ [c]) :: readlinesAux cs []
    else readlinesAux cs (c :: acc)

/-- Python `readlines` on a file with the given contents. -/
def pyReadlines (s : String) : List String :=
  (readlinesAux s.data []).map String.mk

/-- Python `writelines`: the written file is the concatenation of the
lines, with nothing inserted between them. -/
def concatAll : List String → String
  | [] => ""
  | l :: ls => l ++ concatAll ls

/-- The `licenses/LICENSE` file `ThinkboxMYLibraryConan.package`
produces: the lines read from `NOTICE.txt` written first, then the
lines read from `LICENSE.txt`. -/
def packageLicenseFile (noticeContents licenseContents : String) : String :=
  concatAll (pyReadlines noticeContents ++ pyReadlines licenseContents)

end ThinkboxMYLibrary

namespace MayaSDK

/-- The Maya version `configure` resolves: the explicit option value, or
the default `"2022"` when the option is unset. -/
def resolvedVersion (o : MayaSDKOptions) : String :=
  match o.maya_version with
  | none => "2022"
  | some v => v

end MayaSDK

/-- Whether a `validate` outcome is the configuration error the recipes
raise deliberately (a plain `Exception`), as opposed to succeeding or to
the `KeyError` escaping from the unchecked matrix lookup. -/
def isConfigErrorResult : Except PyError Unit → Bool
  | Except.error (PyError.exception _) => true
  | _ => false

/-- The compatibility matrix is duplicated verbatim in the two recipes. -/
theorem matrix_dup :
    MayaSDK.VALID_MAYA_CONFIGS = ThinkboxMYLibrary.VALID_MAYA_CONFIGS := rfl

/-- C9: The four OS-keyed platform tables of the SDK packager — library
file extension, library filename prefix, library subdirectory, and
default installation-path template — all have exactly the same key set,
with one entry for each supported operating system. -/
theorem platform_tables_same_keys :
    MayaSDK.LIBRARY_EXTENSIONS.map Prod.fst = MayaSDK.SETTINGS_os ∧
    MayaSDK.LIBRARY_PREFIXES.map Prod.fst = MayaSDK.SETTINGS_os ∧
    MayaSDK.LIBRARY_DIRECTORIES.map Prod.fst = MayaSDK.SETTINGS_os ∧
    MayaSDK.DEFAULT_MAYA_PATHS.map Prod.fst = MayaSDK.SETTINGS_os :=
  ⟨rfl, rfl, rfl, rfl⟩

theorem readlinesAux_flatten (cs : List Char) :
    ∀ acc, (ThinkboxMYLibrary.readlinesAux cs acc).flatten = acc.reverse ++ cs := by
  induction cs with
  | nil =>
    intro acc
    by_cases h : acc.isEmpty
    · simp [ThinkboxMYLibrary.readlinesAux, h, List.isEmpty_iff.mp h]
    · simp [ThinkboxMYLibrary.readlinesAux, h]
  | cons c cs ih =>
    intro acc
    by_cases h : c = '\n'
    · subst h
      simp [ThinkboxMYLibrary.readlinesAux, ih]
    · simp [ThinkboxMYLibrary.readlinesAux, h, ih]

theorem concatAll_map_mk (ls : List (List Char)) :
    ThinkboxMYLibrary.concatAll (ls.map String.mk) = String.mk ls.flatten := by
  induction ls with
  | nil => rfl
  | cons a ls ih => simp [ThinkboxMYLibrary.concatAll, ih]; rfl

/-- C5: The shared-library packager's `package()` writes, as the
package's `licenses/LICENSE` file, exactly the contents of the NOTICE
file followed by the contents of the LICENSE file; in particular for
notice content `"A\n"` and license content `"B\n"` the produced file is
exactly `"A\nB\n"`. -/
theorem package_license_concatenation :
    (∀ noticeContents licenseContents : String,
        ThinkboxMYLibrary.packageLicenseFile noticeContents licenseContents =
          noticeContents ++ licenseContents) ∧
    ThinkboxMYLibrary.packageLicenseFile "A\n" "B\n" = "A\nB\n" := by
  refine ⟨fun n l => ?_, rfl⟩
  have hmap : ThinkboxMYLibrary.pyReadlines n ++ ThinkboxMYLibrary.pyReadlines l =
      (ThinkboxMYLibrary.readlinesAux n.data [] ++
        ThinkboxMYLibrary.readlinesAux l.data []).map String.mk := by
    simp [ThinkboxMYLibrary.pyReadlines]
  rw [ThinkboxMYLibrary.packageLicenseFile, hmap, concatAll_map_mk]
  have hj : (ThinkboxMYLibrary.readlinesAux n.data [] ++
      ThinkboxMYLibrary.readlinesAux l.data []).flatten = n.data ++ l.data := by
    simp [readlinesAux_flatten]
  rw [hj]
  cases n
  cases l
  rfl

/-- C3: After the shared-library packager's `configure()` runs with its
SDK version set to `"2023"`, the `mayasdk` dependency's SDK-version
option equals `"2023"`; and whenever the two packages' SDK-version
options differ, the shared-library packager's `validate()` fails with
the configuration error. -/
theorem configure_propagates_and_validate_rejects_mismatch :
    (∀ o : ThinkboxMYLibrary.MYLibOptions, o.maya_version = some "2023" →
        (ThinkboxMYLibrary.configure o).maya_version = some "2023" ∧
        (ThinkboxMYLibrary.configure o).mayasdk_maya_version = some "2023") ∧
    (∀ (o : ThinkboxMYLibrary.MYLibOptions) (compiler compilerVersion : String),
        o.maya_version ≠ o.mayasdk_maya_version →
        ThinkboxMYLibrary.validate o compiler compilerVersion =
          Except.error (PyError.exception ThinkboxMYLibrary.mismatchMsg)) := by
  constructor
  · intro o h
    simp [ThinkboxMYLibrary.configure, h]
  · intro o compiler compilerVersion h
    simp [ThinkboxMYLibrary.validate, h]

theorem configure_propagates_and_validate_rejects_mismatch_witness :
    (ThinkboxMYLibrary.configure ⟨some "2023", some "2022"⟩).mayasdk_maya_version =
      some "2023" ∧
    ThinkboxMYLibrary.validate ⟨some "2022", some "2023"⟩ "gcc" "9" =
      Except.error (PyError.exception ThinkboxMYLibrary.mismatchMsg) :=
  ⟨(configure_propagates_and_validate_rejects_mismatch.1 ⟨some "2023", some "2022"⟩ rfl).2,
   configure_propagates_and_validate_rejects_mismatch.2
     ⟨some "2022", some "2023"⟩ "gcc" "9" (by decide)⟩

/-- C7: The SDK packager's `configure()` is idempotent: whenever a run
of `configure` from any starting options succeeds with resolved options
`o1`, running `configure` again on `o1` returns `o1` unchanged. -/
theorem configure_idempotent (os : String) (o o1 : MayaSDK.MayaSDKOptions)
    (h : MayaSDK.configure os o = Except.ok o1) :
    MayaSDK.configure os o1 = Except.ok o1 := by
  rcases o with ⟨mv, mp⟩
  cases mv <;> cases mp <;> simp only [MayaSDK.configure] at h
  case none.none =>
    cases ht : dictGet MayaSDK.DEFAULT_MAYA_PATHS os <;> simp [ht] at h
    simp [MayaSDK.configure, ← h]
  case none.some p =>
    simp at h
    simp [MayaSDK.configure, ← h]
  case some.none v =>
    cases ht : dictGet MayaSDK.DEFAULT_MAYA_PATHS os <;> simp [ht] at h
    simp [MayaSDK.configure, ← h]
  case some.some v p =>
    simp at h
    simp [MayaSDK.configure, ← h]

theorem configure_idempotent_witness :
    MayaSDK.configure "Linux" ⟨some "2022", some "/usr/autodesk/maya2022"⟩ =
      Except.ok ⟨some "2022", some "/usr/autodesk/maya2022"⟩ :=
  configure_idempotent "Linux" ⟨none, none⟩ _ rfl

/-- C10: The SDK packager's `configure()` modifies only options that are
unset: a set `maya_version` is left unchanged, a set `maya_path` is left
unchanged (whatever its value), and when both are set the options come
back exactly as they went in. -/
theorem configure_frame_only_unset (os : String) (o o1 : MayaSDK.MayaSDKOptions)
    (h : MayaSDK.configure os o = Except.ok o1) :
    (∀ v, o.maya_version = some v → o1.maya_version = some v) ∧
    (∀ p, o.maya_path = some p → o1.maya_path = some p) ∧
    (o.maya_version ≠ none → o.maya_path ≠ none → o1 = o) := by
  rcases o with ⟨mv, mp⟩
  cases mv <;> cases mp <;>
    simp only [MayaSDK.configure] at h
  case none.none =>
    cases ht : dictGet MayaSDK.DEFAULT_MAYA_PATHS os <;> simp [ht] at h
    simp [← h]
  case none.some p =>
    simp at h
    simp [← h]
  case some.none v =>
    cases ht : dictGet MayaSDK.DEFAULT_MAYA_PATHS os <;> simp [ht] at h
    simp [← h]
  case some.some v p =>
    simp at h
    simp [← h]

theorem configure_frame_only_unset_witness :
    (⟨some "2023", some "/opt/maya"⟩ : MayaSDK.MayaSDKOptions) =
      ⟨some "2023", some "/opt/maya"⟩ :=
  (configure_frame_only_unset "Linux" ⟨some "2023", some "/opt/maya"⟩
      ⟨some "2023", some "/opt/maya"⟩ rfl).2.2 (by decide) (by decide)

/-- C6: For every supported OS (every key of the default-path table),
when `maya_path` is unset, `configure()` sets it to exactly the
OS-specific default-path template with the resolved SDK version
substituted; in particular for OS `"Linux"` and version `"2023"` the
resulting path is `/usr/autodesk/maya2023`. -/
theorem configure_default_path_template (os t : String)
    (ht : dictGet MayaSDK.DEFAULT_MAYA_PATHS os = some t)
    (o : MayaSDK.MayaSDKOptions) (hp : o.maya_path = none) :
    MayaSDK.configure os o =
      Except.ok ⟨some (MayaSDK.resolvedVersion o),
        some (pyFormat1 t (MayaSDK.resolvedVersion o))⟩ ∧
    MayaSDK.configure "Linux" ⟨some "2023", none⟩ =
      Except.ok ⟨some "2023", some "/usr/autodesk/maya2023"⟩ := by
  refine ⟨?_, rfl⟩
  rcases o with ⟨mv, mp⟩
  cases hp
  cases mv <;> simp [MayaSDK.configure, MayaSDK.resolvedVersion, ht, pyStr]

theorem configure_default_path_template_witness :
    MayaSDK.configure "Windows" ⟨none, none⟩ =
      Except.ok ⟨some "2022", some "C:/Program Files/Autodesk/Maya2022"⟩ :=
  (configure_default_path_template "Windows" "C:/Program Files/Autodesk/Maya\x7b\x7d"
      rfl ⟨none, none⟩ rfl).1

/-- C8: The compatibility matrices declared in the two package
descriptors are identical mappings, and consequently, for matching
option states, the SDK packager's `validate()` and the shared-library
packager's `validate()` return identical outcomes on every
(compiler, compiler-version, SDK-version) triple. -/
theorem matrices_identical_validate_agree :
    MayaSDK.VALID_MAYA_CONFIGS = ThinkboxMYLibrary.VALID_MAYA_CONFIGS ∧
    ∀ (compiler compilerVersion m : String)
      (o1 : MayaSDK.MayaSDKOptions) (o2 : ThinkboxMYLibrary.MYLibOptions),
      o1.maya_version = some m → o2.maya_version = some m →
      o2.mayasdk_maya_version = some m →
      MayaSDK.validate o1 compiler compilerVersion =
        ThinkboxMYLibrary.validate o2 compiler compilerVersion := by
  refine ⟨rfl, ?_⟩
  intro compiler compilerVersion m o1 o2 h1 h2 h3
  simp only [MayaSDK.validate, ThinkboxMYLibrary.validate, h1, h2, h3, ne_eq,
    not_true_eq_false, if_false, ite_false]
  rw [matrix_dup]

theorem matrices_identical_validate_agree_witness :
    MayaSDK.validate ⟨some "2023", none⟩ "apple-clang" "10.0" =
      ThinkboxMYLibrary.validate ⟨some "2023", some "2023"⟩ "apple-clang" "10.0" :=
  matrices_identical_validate_agree.2 "apple-clang" "10.0" "2023"
    ⟨some "2023", none⟩ ⟨some "2023", some "2023"⟩ rfl rfl rfl

/-- C1 counterexample: at the combination (`"clang"`, `"5"`, `"2022"`),
whose compiler pair is not a key of the compatibility matrix, the SDK
packager's `validate()` does not fail with a configuration error as the
claim states — it fails with the `KeyError` of the unchecked matrix
lookup. -/
theorem validate_unknown_pair_counterexample :
    MayaSDK.validate ⟨some "2022", none⟩ "clang" "5" =
      Except.error (PyError.keyError ("clang", "5")) ∧
    isConfigErrorResult (MayaSDK.validate ⟨some "2022", none⟩ "clang" "5") = false :=
  ⟨rfl, rfl⟩

/-- C1 (amended): for every key pair of the compatibility matrix and
every SDK version in that key's set, the SDK packager's `validate()`
returns without raising; for a key pair with an SDK version outside the
set it fails with the configuration error; and for a compiler pair that
is not a key it fails with a key-not-found error instead. -/
theorem validate_matrix_trichotomy (compiler compilerVersion mayaVersion : String)
    (o : MayaSDK.MayaSDKOptions) (ho : o.maya_version = some mayaVersion) :
    (∀ s, dictGet MayaSDK.VALID_MAYA_CONFIGS (compiler, compilerVersion) = some s →
        (mayaVersion ∈ s → MayaSDK.validate o compiler compilerVersion = Except.ok ()) ∧
        (mayaVersion ∉ s → MayaSDK.validate o compiler compilerVersion =
            Except.error (PyError.exception
              (configErrMsg (compiler, compilerVersion) mayaVersion)))) ∧
    (dictGet MayaSDK.VALID_MAYA_CONFIGS (compiler, compilerVersion) = none →
        MayaSDK.validate o compiler compilerVersion =
          Except.error (PyError.keyError (compiler, compilerVersion))) := by
  constructor
  · intro s hs
    constructor
    · intro hm
      simp [MayaSDK.validate, ho, hs, pyStr, hm]
    · intro hm
      simp [MayaSDK.validate, ho, hs, pyStr, hm]
  · intro hnone
    simp [MayaSDK.validate, ho, hnone]

theorem validate_matrix_trichotomy_witness :
    MayaSDK.validate ⟨some "2022", none⟩ "gcc" "9" = Except.ok () ∧
    MayaSDK.validate ⟨some "2024", none⟩ "gcc" "9" =
      Except.error (PyError.exception (configErrMsg ("gcc", "9") "2024")) ∧
    MayaSDK.validate ⟨some "2022", none⟩ "intel" "19" =
      Except.error (PyError.keyError ("intel", "19")) :=
  ⟨((validate_matrix_trichotomy "gcc" "9" "2022" ⟨some "2022", none⟩ rfl).1
      ["2022", "2023"] rfl).1 (by decide),
   ((validate_matrix_trichotomy "gcc" "9" "2024" ⟨some "2024", none⟩ rfl).1
      ["2022", "2023"] rfl).2 (by decide),
   (validate_matrix_trichotomy "intel" "19" "2022" ⟨some "2022", none⟩ rfl).2 rfl⟩

/-- C2: for every (compiler, compiler-version) pair that is not a key of
the compatibility matrix, both packagers' `validate()` raise the
key-not-found error of the unchecked dictionary lookup — not the
configuration error a matrix mismatch raises (the shared-library
packager reaches its lookup when its two version options agree). -/
theorem validate_unknown_pair_raises_key_not_found
    (compiler compilerVersion : String)
    (habs : dictGet MayaSDK.VALID_MAYA_CONFIGS (compiler, compilerVersion) = none)
    (o1 : MayaSDK.MayaSDKOptions) (o2 : ThinkboxMYLibrary.MYLibOptions)
    (heq : o2.maya_version = o2.mayasdk_maya_version) :
    MayaSDK.validate o1 compiler compilerVersion =
      Except.error (PyError.keyError (compiler, compilerVersion)) ∧
    ThinkboxMYLibrary.validate o2 compiler compilerVersion =
      Except.error (PyError.keyError (compiler, compilerVersion)) ∧
    isConfigErrorResult (MayaSDK.validate o1 compiler compilerVersion) = false ∧
    isConfigErrorResult (ThinkboxMYLibrary.validate o2 compiler compilerVersion) = false := by
  have h1 : MayaSDK.validate o1 compiler compilerVersion =
      Except.error (PyError.keyError (compiler, compilerVersion)) := by
    simp [MayaSDK.validate, habs]
  have h2 : ThinkboxMYLibrary.validate o2 compiler compilerVersion =
      Except.error (PyError.keyError (compiler, compilerVersion)) := by
    rw [matrix_dup] at habs
    simp [ThinkboxMYLibrary.validate, heq, habs]
  exact ⟨h1, h2, by rw [h1]; rfl, by rw [h2]; rfl⟩

theorem validate_unknown_pair_raises_key_not_found_witness :
    MayaSDK.validate ⟨some "2022", none⟩ "msvc" "19" =
      Except.error (PyError.keyError ("msvc", "19")) ∧
    ThinkboxMYLibrary.validate ⟨some "2022", some "2022"⟩ "msvc" "19" =
      Except.error (PyError.keyError ("msvc", "19")) ∧
    isConfigErrorResult (MayaSDK.validate ⟨some "2022", none⟩ "msvc" "19") = false ∧
    isConfigErrorResult
      (ThinkboxMYLibrary.validate ⟨some "2022", some "2022"⟩ "msvc" "19") = false :=
  validate_unknown_pair_raises_key_not_found "msvc" "19" rfl
    ⟨some "2022", none⟩ ⟨some "2022", some "2022"⟩ rfl

theorem copyLibs_ok (os d p ext : String) (avail : List String)
    (hdir : dictGet MayaSDK.LIBRARY_DIRECTORIES os = some d)
    (hp : dictGet MayaSDK.LIBRARY_PREFIXES os = some p)
    (he : dictGet MayaSDK.LIBRARY_EXTENSIONS os = some ext) :
    ∀ libs : List String, (∀ l ∈ libs, p ++ l ++ "." ++ ext ∈ avail) →
      MayaSDK.copyLibs os avail libs =
        Except.ok (libs.map (fun l => p ++ l ++ "." ++ ext)) := by
  intro libs
  induction libs with
  | nil => intro _; rfl
  | cons l rest ih =>
    intro h
    have hl : p ++ l ++ "." ++ ext ∈ avail := h l (by simp)
    have hrest := ih (fun x hx => h x (by simp [hx]))
    simp [MayaSDK.copyLibs, MayaSDK.pyDictGetS, hdir, hp, he, hl, hrest]

theorem copyLibs_missing (os d p ext : String) (avail : List String)
    (hdir : dictGet MayaSDK.LIBRARY_DIRECTORIES os = some d)
    (hp : dictGet MayaSDK.LIBRARY_PREFIXES os = some p)
    (he : dictGet MayaSDK.LIBRARY_EXTENSIONS os = some ext) :
    ∀ (libs : List String) (lib : String), lib ∈ libs →
      p ++ lib ++ "." ++ ext ∉ avail →
      ∀ r, MayaSDK.copyLibs os avail libs ≠ Except.ok r := by
  intro libs
  induction libs with
  | nil =>
    intro lib hmem
    simp at hmem
  | cons l rest ih =>
    intro lib hmem hmiss r
    simp only [MayaSDK.copyLibs, MayaSDK.pyDictGetS, hdir, hp, he]
    rcases List.mem_cons.mp hmem with hcase | hcase
    · subst hcase
      rw [if_neg hmiss]
      simp
    · by_cases hin : p ++ l ++ "." ++ ext ∈ avail
      · rw [if_pos hin]
        cases hre : MayaSDK.copyLibs os avail rest with
        | error e => simp
        | ok r2 => exact absurd hre (ih lib hcase hmiss r2)
      · rw [if_neg hin]
        simp

theorem build_core (os d p ext : String)
    (hdir : dictGet MayaSDK.LIBRARY_DIRECTORIES os = some d)
    (hp : dictGet MayaSDK.LIBRARY_PREFIXES os = some p)
    (he : dictGet MayaSDK.LIBRARY_EXTENSIONS os = some ext)
    (vendor : MayaSDK.VendorInstall) (hs : List String)
    (hh : vendor.headerTree = some hs) :
    ((∀ l ∈ MayaSDK.MAYA_SDK_LIBS, p ++ l ++ "." ++ ext ∈ vendor.libFiles) →
        MayaSDK.build os vendor = Except.ok
          ⟨hs, MayaSDK.MAYA_SDK_LIBS.map (fun l => p ++ l ++ "." ++ ext)⟩) ∧
    (∀ l ∈ MayaSDK.MAYA_SDK_LIBS, p ++ l ++ "." ++ ext ∉ vendor.libFiles →
        ∀ out, MayaSDK.build os vendor ≠ Except.ok out) := by
  constructor
  · intro hall
    have hc := copyLibs_ok os d p ext vendor.libFiles hdir hp he
      MayaSDK.MAYA_SDK_LIBS hall
    simp [MayaSDK.build, hh, hc]
  · intro l hmem hmiss out
    simp only [MayaSDK.build, hh]
    cases hre : MayaSDK.copyLibs os vendor.libFiles MayaSDK.MAYA_SDK_LIBS with
    | error e => simp
    | ok r =>
      exact absurd hre
        (copyLibs_missing os d p ext vendor.libFiles hdir hp he
          MayaSDK.MAYA_SDK_LIBS l hmem hmiss r)

/-- C4: For every supported OS, when the vendor installation contains
the `include/maya` headers directory and all six required libraries
under their platform-specific names, the SDK packager's `build()`
produces a `lib/` output holding exactly the six platform-named files
and an `include/maya` tree mirroring the vendor headers; when any one of
the six libraries is missing, `build()` fails before completing rather
than skipping the missing library. -/
theorem build_six_libs_or_fail (os : String) (hos : os ∈ MayaSDK.SETTINGS_os)
    (vendor : MayaSDK.VendorInstall) (hs : List String)
    (hh : vendor.headerTree = some hs) :
    ((∀ l ∈ MayaSDK.MAYA_SDK_LIBS, MayaSDK.expectedLibFile os l ∈ vendor.libFiles) →
        MayaSDK.build os vendor = Except.ok
          ⟨hs, MayaSDK.MAYA_SDK_LIBS.map (MayaSDK.expectedLibFile os)⟩ ∧
        (MayaSDK.MAYA_SDK_LIBS.map (MayaSDK.expectedLibFile os)).length = 6) ∧
    (∀ l ∈ MayaSDK.MAYA_SDK_LIBS, MayaSDK.expectedLibFile os l ∉ vendor.libFiles →
        ∀ out, MayaSDK.build os vendor ≠ Except.ok out) := by
  have hos3 : os = "Windows" ∨ os = "Linux" ∨ os = "Macos" := by
    simpa [MayaSDK.SETTINGS_os] using hos
  rcases hos3 with h | h | h <;> subst h
  · have hc := build_core "Windows" "lib" "" "lib" rfl rfl rfl vendor hs hh
    exact ⟨fun hall => ⟨hc.1 hall, rfl⟩, hc.2⟩
  · have hc := build_core "Linux" "lib" "lib" "so" rfl rfl rfl vendor hs hh
    exact ⟨fun hall => ⟨hc.1 hall, rfl⟩, hc.2⟩
  · have hc := build_core "Macos" "Maya.app/Conents/MacOS" "lib" "dylib"
      rfl rfl rfl vendor hs hh
    exact ⟨fun hall => ⟨hc.1 hall, rfl⟩, hc.2⟩

theorem build_six_libs_or_fail_witness :
    MayaSDK.build "Linux"
        ⟨some ["MFn.h"],
          ["libFoundation.so", "libOpenMaya.so", "libOpenMayaAnim.so",
           "libOpenMayaFX.so", "libOpenMayaRender.so", "libOpenMayaUI.so"]⟩ =
      Except.ok ⟨["MFn.h"],
        ["libFoundation.so", "libOpenMaya.so", "libOpenMayaAnim.so",
         "libOpenMayaFX.so", "libOpenMayaRender.so", "libOpenMayaUI.so"]⟩ :=
  ((build_six_libs_or_fail "Linux" (by decide) _ ["MFn.h"] rfl).1 (by decide)).1
